import Mathlib

/-!
Shallow embedding of `src/http_request_instant.go` (package
`http_request_instant`), a thin wrapper around Go's `net/http` client.

Modelling conventions:
* Byte sequences (`[]byte`) are modelled as `String`.
* Go `error` values are the inductive `GoError`; `fmt.Errorf` with a `%w`
  verb becomes `GoError.wrapped`, without one it becomes `GoError.errorf`.
* The external collaborators (the `IS_PRODUCTION` environment variable,
  `json.Marshal`, `xml.Marshal`, `http.NewRequest` validation and
  `http.Client.Do`) are oracle fields of an `Env` record; `Request` is a
  pure function of the `Env` and the options.  Independence of the result
  from an oracle field expresses that the corresponding collaborator is
  never consulted on that path.
* Fallible operations return `Except GoError _`; Go's `(nil, err)` /
  `(value, nil)` pairs become `.error` / `.ok`.
-/

set_option maxHeartbeats 1000000

namespace HttpRequestInstant

/-- Go `error` values as seen through this package: `errorf msg` is
`fmt.Errorf(msg)` (no wrapping), `wrapped msg cause` is
`fmt.Errorf(msg + ": %w", cause)`, and the remaining constructors stand for
errors produced by external collaborators (transport, readers, encoders). -/
inductive GoError where
  | errorf (msg : String)
  | wrapped (msg : String) (cause : GoError)
  | transportFailure (name : String)
  | externalFailure (name : String)
deriving DecidableEq, Repr

/-- `BasicAuth` struct (src lines 24-27): username and password. -/
structure BasicAuth where
  username : String
  password : String
deriving DecidableEq, Repr

/-- The dynamic type of the `RequestBody interface{}` field (src line 18):
`nil`, a `string`, a `[]byte`, or any other (structured) Go value, the latter
drawn from a parameter type `Struct`. -/
inductive RequestBody (Struct : Type) where
  | null
  | str (s : String)
  | bytes (b : String)
  | structured (v : Struct)

/-- `RequestOptions` struct (src lines 14-21).  The Go
`Headers map[string]string` is modelled as an association list; Go map
iteration order is unspecified, so theorems that depend on the custom
headers only assume facts invariant under reordering. -/
structure RequestOptions (Struct : Type) where
  method : String
  url : String
  headers : List (String × String) := []
  requestBody : RequestBody Struct := RequestBody.null
  contentType : String := ""
  basicAuth : Option BasicAuth := none

/-- `ApiResponse` struct (src lines 30-33): exactly two fields, the HTTP
status code and the raw body bytes. -/
structure ApiResponse where
  statusCode : Int
  body : String
deriving DecidableEq, Repr

/-- The `ApiResponse` struct (src lines 30-33) has exactly the two fields
`StatusCode` and `Body`; a response value carries no header data at all, so
the header mapping carried by any `ApiResponse` is empty. -/
def ApiResponse.carriedHeaders (_r : ApiResponse) : List (String × String) := []

/-- Character class accepted in MIME header keys by Go
`net/textproto.validHeaderFieldByte`: letters, digits and the RFC 7230
token symbols. -/
def isTokenChar (c : Char) : Bool :=
  c.isAlpha || c.isDigit ||
  c == '!' || c == '#' || c == '$' || c == '%' || c == '&' ||
  c == Char.ofNat 39 || c == '*' || c == '+' || c == '-' || c == '.' ||
  c == '^' || c == '_' || c == Char.ofNat 96 || c == '|' || c == '~'

/-- Case folding pass of Go `net/textproto.CanonicalMIMEHeaderKey`: upper-case
a letter at the start and after each `-`, lower-case every other letter. -/
def canonChars : Bool → List Char → List Char
  | _, [] => []
  | upper, c :: rest =>
    let c' := if upper then c.toUpper else c.toLower
    c' :: canonChars (c' == '-') rest

/-- Go `net/textproto.CanonicalMIMEHeaderKey`: if the key contains a
character that is not a valid header-field byte it is returned unchanged,
otherwise it is canonicalised (`content-type` ↦ `Content-Type`). -/
def canonicalMIMEHeaderKey (s : String) : String :=
  if s.toList.all isTokenChar then String.mk (canonChars true s.toList) else s

/-- Go `http.Header.Set` on a header map in which every key holds a single
value (this package only ever uses `Set`, never `Add`): replace any entry
under the canonical key by the new value. -/
def headerSet (h : List (String × String)) (k v : String) :
    List (String × String) :=
  let ck := canonicalMIMEHeaderKey k
  h.filter (fun p => p.1 != ck) ++ [(ck, v)]

/-- Go `http.Header.Get`: the value stored under the canonical key. -/
def headerGet (h : List (String × String)) (k : String) : Option String :=
  (h.find? (fun p => p.1 == canonicalMIMEHeaderKey k)).map Prod.snd

/-- Standard base64 alphabet, as used by Go `encoding/base64.StdEncoding`. -/
def base64Alphabet : String :=
  "ABCDEFGHIJKLMNOPQRSTUVWXYZabcdefghijklmnopqrstuvwxyz0123456789+/"

/-- Character of the standard base64 alphabet at a 6-bit index. -/
def b64char (n : Nat) : Char := base64Alphabet.toList.getD n 'A'

/-- Base64 encoding of a byte list (Go `encoding/base64.StdEncoding.Encode`),
used by `http.Request.SetBasicAuth`. -/
def base64EncodeBytes : List Nat → String
  | [] => ""
  | [a] =>
    String.mk [b64char (a / 4), b64char (a % 4 * 16)] ++ "=="
  | [a, b] =>
    String.mk [b64char (a / 4), b64char (a % 4 * 16 + b / 16),
      b64char (b % 16 * 4)] ++ "="
  | a :: b :: c :: rest =>
    String.mk [b64char (a / 4), b64char (a % 4 * 16 + b / 16),
      b64char (b % 16 * 4 + c / 64), b64char (c % 64)] ++
    base64EncodeBytes rest

/-- UTF-8 byte sequence of a single character. -/
def utf8Bytes (c : Char) : List Nat :=
  let n := c.toNat
  if n < 128 then [n]
  else if n < 2048 then [192 + n / 64, 128 + n % 64]
  else if n < 65536 then [224 + n / 4096, 128 + n / 64 % 64, 128 + n % 64]
  else [240 + n / 262144, 128 + n / 4096 % 64, 128 + n / 64 % 64, 128 + n % 64]

/-- Base64 of the UTF-8 bytes of a string. -/
def base64Encode (s : String) : String :=
  base64EncodeBytes (s.toList.foldr (fun c acc => utf8Bytes c ++ acc) [])

/-- An outgoing `http.Request` as this package builds one: method, URL,
optional body bytes, and the header map (`http.NewRequest` starts it empty). -/
structure HttpReq where
  method : String
  url : String
  body : Option String
  header : List (String × String)
deriving DecidableEq, Repr

/-- An incoming `http.Response` as this package consumes one: status code,
the transport-level header map (`map[string][]string`, which the src code
never reads), and the outcome of `io.ReadAll` on the body stream. -/
structure HttpResp where
  statusCode : Int
  headers : List (String × List String)
  bodyRead : Except GoError String
deriving Repr

/-- External collaborators of a `Request` call, as oracles:
`isProduction` is the value of `os.Getenv("IS_PRODUCTION")` at the moment of
the call (Go returns `""` for an unset variable); `jsonMarshal` and
`xmlMarshal` are `encoding/json.Marshal` and `encoding/xml.Marshal` on
structured values; `newRequestCheck` is the validation performed by
`http.NewRequest` on method and URL (`some e` means construction fails with
`e`); `clDo` is `c.cl.Do`. -/
structure Env (Struct : Type) where
  isProduction : String
  jsonMarshal : Struct → Except GoError String
  xmlMarshal : Struct → Except GoError String
  newRequestCheck : String → String → Option GoError
  clDo : HttpReq → Except GoError HttpResp

/-- Body preparation step of `Request` (src lines 65-86): a `nil` body stays
absent; a `string` or `[]byte` body is used verbatim; any other body is
marshalled according to `ContentType`, where only `"application/json"` and
`"application/xml"` are accepted and a marshal failure is wrapped as
`error marshal request body: %w`. -/
def prepareBody {Struct : Type} (c : Env Struct)
    (options : RequestOptions Struct) : Except GoError (Option String) :=
  match options.requestBody with
  | .null => .ok none
  | .str v => .ok (some v)
  | .bytes v => .ok (some v)
  | .structured v =>
    match options.contentType with
    | "application/json" =>
      match c.jsonMarshal v with
      | .ok b => .ok (some b)
      | .error e => .error (.wrapped "error marshal request body" e)
    | "application/xml" =>
      match c.xmlMarshal v with
      | .ok b => .ok (some b)
      | .error e => .error (.wrapped "error marshal request body" e)
    | _ => .error (.errorf ("unsupported Content-Type: " ++ options.contentType))

/-- The custom-header loop of `Request` (src lines 102-104):
`for key, value := range options.Headers { req.Header.Set(key, value) }`. -/
def applyHeaders (h : List (String × String)) (hdrs : List (String × String)) :
    List (String × String) :=
  hdrs.foldl (fun acc kv => headerSet acc kv.1 kv.2) h

/-- Header and auth injection of `Request` (src lines 87-109): the request
starts with an empty header map; the computed content type is set first
(only when non-empty), then every custom header is set, then basic auth
sets the `Authorization` header. -/
def buildRequest {Struct : Type} (options : RequestOptions Struct)
    (body : Option String) : HttpReq :=
  let h0 : List (String × String) :=
    if options.contentType ≠ "" then headerSet [] "Content-Type" options.contentType
    else []
  let h1 := applyHeaders h0 options.headers
  let h2 :=
    match options.basicAuth with
    | some ba =>
      let cred := "Basic " ++ base64Encode (ba.username ++ ":" ++ ba.password)
      headerSet h1 "Authorization" cred
    | none => h1
  { method := options.method, url := options.url, body := body, header := h2 }

/-- Dispatch and body read steps of `Request` (src lines 111-127): `Do` errors
are returned as-is with no response; `io.ReadAll` errors likewise; on success
the status code and the body bytes form the `ApiResponse`. -/
def sendAndRead {Struct : Type} (c : Env Struct) (req : HttpReq) :
    Except GoError ApiResponse :=
  match c.clDo req with
  | .error e => .error e
  | .ok resp =>
    match resp.bodyRead with
    | .error e => .error e
    | .ok respByte => .ok { statusCode := resp.statusCode, body := respByte }

/-- `handleDevelopmentRequest` (src lines 132-138): a fixed `ApiResponse`
with status 200 and body `"success"`, no error, the options ignored. -/
def handleDevelopmentRequest {Struct : Type}
    (_options : RequestOptions Struct) : Except GoError ApiResponse :=
  .ok { statusCode := 200, body := "success" }

/-- Non-mock path of `Request` (src lines 62-127): prepare the body, validate
request construction (a failure is wrapped as `error create request: %w`),
then build headers, dispatch and read. -/
def requestReal {Struct : Type} (c : Env Struct)
    (options : RequestOptions Struct) : Except GoError ApiResponse :=
  match prepareBody c options with
  | .error e => .error e
  | .ok body =>
    match c.newRequestCheck options.method options.url with
    | some e => .error (.wrapped "error create request" e)
    | none => sendAndRead c (buildRequest options body)

/-- `Request` (src lines 55-128): if `os.Getenv("IS_PRODUCTION") == "false"`
return the mock response, otherwise run the real pipeline. -/
def Request {Struct : Type} (c : Env Struct)
    (options : RequestOptions Struct) : Except GoError ApiResponse :=
  if c.isProduction = "false" then handleDevelopmentRequest options
  else requestReal c options

/-! The spec (sections 3, 4.1 step 9 and 6) and the tests in
`src/http_request_instant_test.go` describe a further `Request` variant that
takes a response target and deserialises the response body into it
(`ResponseTarget` in the tests, `RequestWithParse` in the README).  That
code is not under `src/`; only its tests and callers are.  The definitions
below model it from the spec. -/

/-- Occurrence of one character list inside another: `pat` occurs in `l`
when some suffix of `l` starts with `pat`. -/
def subOccurs (pat : List Char) : List Char → Bool
  | [] => pat == []
  | c :: rest => pat.isPrefixOf (c :: rest) || subOccurs pat rest

/-- Go `strings.Contains`: whether `pat` occurs as a substring of `s`. -/
def strContains (s pat : String) : Bool :=
  subOccurs pat.toList s.toList

/-- Modelled from the spec: the content type a response itself declares — the
first value of its `Content-Type` header, absent when the header is absent
or empty of values. -/
def respContentType (resp : HttpResp) : Option String :=
  match resp.headers.find? (fun p => p.1 == "Content-Type") with
  | some p => p.2.head?
  | none => none

/-- Modelled from the spec (§4.1 step 9): the effective content type of a
response — the explicit request `ContentType` takes precedence; if empty,
fall back to the response's own declared content-type header; if that too
is absent, treat as empty (i.e. JSON). -/
def effectiveContentType (reqCT : String) (respCT : Option String) : String :=
  if reqCT ≠ "" then reqCT else respCT.getD ""

/-- Modelled from the spec (§4.1 step 9): decode the response body into the
target under the effective content type `ect`.  `jsonU` and `xmlU` are the
JSON and XML unmarshallers for the target type.  A content type containing
`"application/json"` (substring match) or empty decodes as JSON; one
containing `"application/xml"` decodes as XML; anything else attempts JSON
as a fallback and on failure reports the unrecognised content type. -/
def parseResponseBody {Target : Type}
    (jsonU xmlU : String → Except GoError Target)
    (ect : String) (body : String) : Except GoError Target :=
  if strContains ect "application/json" || ect == "" then
    match jsonU body with
    | .ok t => .ok t
    | .error e => .error (.wrapped "error unmarshal response body" e)
  else if strContains ect "application/xml" then
    match xmlU body with
    | .ok t => .ok t
    | .error e => .error (.wrapped "error unmarshal response body" e)
  else
    match jsonU body with
    | .ok t => .ok t
    | .error e => .error (.wrapped ("unsupported response Content-Type: " ++ ect) e)

/-- Modelled from the spec: the `Request` variant that accepts a response
target (absent from `src/`; the tests call it as `Request(ctx, options)` with
`ResponseTarget`, the README as `RequestWithParse(options, &target)`).  It
runs the same pipeline as `Request` — mock short-circuit, body preparation,
construction check, dispatch, body read — and then, when a target was
supplied (`hasTarget`), decodes the body into the target according to the
effective content type.  The populated target is returned as the second
component; `none` means the target was left untouched. -/
def RequestWithParse {Struct Target : Type} (c : Env Struct)
    (jsonU xmlU : String → Except GoError Target)
    (options : RequestOptions Struct) (hasTarget : Bool) :
    Except GoError (ApiResponse × Option Target) :=
  if c.isProduction = "false" then
    .ok ({ statusCode := 200, body := "success" }, none)
  else
    match prepareBody c options with
    | .error e => .error e
    | .ok body =>
      match c.newRequestCheck options.method options.url with
      | some e => .error (.wrapped "error create request" e)
      | none =>
        match c.clDo (buildRequest options body) with
        | .error e => .error e
        | .ok resp =>
          match resp.bodyRead with
          | .error e => .error e
          | .ok respByte =>
            if hasTarget then
              match parseResponseBody jsonU xmlU
                  (effectiveContentType options.contentType (respContentType resp))
                  respByte with
              | .ok t => .ok ({ statusCode := resp.statusCode, body := respByte }, some t)
              | .error e => .error e
            else
              .ok ({ statusCode := resp.statusCode, body := respByte }, none)

/-! Concrete fixtures used by counterexamples and witnesses. -/

/-- An environment with benign collaborators: not in mock mode
(`IS_PRODUCTION` is unset, i.e. `""`), marshalling succeeds, request
construction succeeds, and the transport answers status 201 with a
multi-valued header and body `"B"`. -/
def envOk : Env Unit where
  isProduction := ""
  jsonMarshal := fun _ => .ok "{}"
  xmlMarshal := fun _ => .ok "<x/>"
  newRequestCheck := fun _ _ => none
  clDo := fun _ =>
    .ok { statusCode := 201, headers := [("X-Multi", ["a", "b"])], bodyRead := .ok "B" }

/-- An environment in mock mode (`IS_PRODUCTION=false`) whose transport
would fail if it were ever consulted. -/
def envMock : Env Unit :=
  { envOk with
    isProduction := "false"
    clDo := fun _ => .error (.transportFailure "no network") }

/-- An environment whose transport fails with a connection-refused error. -/
def envDoErr : Env Unit :=
  { envOk with clDo := fun _ => .error (.transportFailure "connection refused") }

/-- Plain GET options: no body, no content type, no custom headers. -/
def optsPlain : RequestOptions Unit :=
  { method := "GET", url := "https://example.com" }

/-- Options with a structured body and an empty content type. -/
def optsStructNoCT : RequestOptions Unit :=
  { method := "POST", url := "https://example.com", requestBody := .structured () }

/-- Options with a raw string body and a non-serialization content type. -/
def optsRaw : RequestOptions Unit :=
  { optsPlain with requestBody := .str "RAW", contentType := "text/plain" }

/-- Options with a structured body and JSON content type. -/
def optsJsonStruct : RequestOptions Unit :=
  { optsStructNoCT with contentType := "application/json" }

/-- Options with a structured body and a `text/plain` content type. -/
def optsTextPlainStruct : RequestOptions Unit :=
  { optsStructNoCT with contentType := "text/plain" }

/-- An environment whose JSON encoder fails. -/
def envJsonMarshalFail : Env Unit :=
  { envOk with jsonMarshal := fun _ => .error (.externalFailure "cycle") }

/-- An environment outside mock mode with `IS_PRODUCTION=true`. -/
def envTrue : Env Unit := { envOk with isProduction := "true" }

/-- Options carrying an explicit content type and a lower-case custom
`content-type` header with a different value. -/
def optsHdrOverride : RequestOptions Unit :=
  { method := "POST", url := "https://example.com",
    contentType := "application/json",
    headers := [("content-type", "text/plain"), ("X-Api-Key", "k")] }

/-- A JSON unmarshaller for `Target := String` that succeeds and returns the
body itself. -/
def jsonEcho : String → Except GoError String := fun s => .ok s

/-- An XML unmarshaller for `Target := String` that always fails. -/
def xmlNever : String → Except GoError String :=
  fun _ => .error (.externalFailure "xml")

/-! Helper lemmas about the header map operations. -/

lemma find?_filter_ne_append (l : List (String × String)) (ck v : String) :
    ((l.filter (fun p => p.1 != ck)) ++ [(ck, v)]).find?
      (fun p => p.1 == ck) = some (ck, v) := by
  have h1 : (l.filter (fun p => p.1 != ck)).find? (fun p => p.1 == ck) = none := by
    rw [List.find?_eq_none]
    intro x hx
    have hx' := List.of_mem_filter hx
    simpa using hx'
  rw [List.find?_append, h1]
  simp

lemma find?_filter_ne_append_ne (l : List (String × String)) (ck ca v : String)
    (h : ca ≠ ck) :
    ((l.filter (fun p => p.1 != ck)) ++ [(ck, v)]).find? (fun p => p.1 == ca) =
      l.find? (fun p => p.1 == ca) := by
  rw [List.find?_append]
  have h2 : [(ck, v)].find? (fun p => p.1 == ca) = none := by
    simp [Ne.symm h]
  rw [h2]
  induction l with
  | nil => simp
  | cons p t ih =>
    by_cases hpk : p.1 = ck
    · rw [List.filter_cons_of_neg (by simp [hpk]),
        List.find?_cons_of_neg _ (by simp [hpk, Ne.symm h])]
      exact ih
    · rw [List.filter_cons_of_pos (by simp [hpk])]
      by_cases hpa : p.1 = ca
      · rw [List.find?_cons_of_pos _ (by simp [hpa]),
          List.find?_cons_of_pos _ (by simp [hpa])]
        simp
      · rw [List.find?_cons_of_neg _ (by simp [hpa]),
          List.find?_cons_of_neg _ (by simp [hpa])]
        exact ih

/-- Setting a key whose canonical form agrees with the looked-up key yields
the new value. -/
lemma headerGet_headerSet_canon_eq (h : List (String × String)) (k k' v : String)
    (hk : canonicalMIMEHeaderKey k' = canonicalMIMEHeaderKey k) :
    headerGet (headerSet h k' v) k = some v := by
  unfold headerGet headerSet
  rw [hk, find?_filter_ne_append]
  rfl

/-- Setting a key whose canonical form differs from the looked-up key leaves
the lookup unchanged. -/
lemma headerGet_headerSet_canon_ne (h : List (String × String)) (k k' v : String)
    (hk : canonicalMIMEHeaderKey k' ≠ canonicalMIMEHeaderKey k) :
    headerGet (headerSet h k' v) k = headerGet h k := by
  unfold headerGet headerSet
  rw [find?_filter_ne_append_ne _ _ _ _ (Ne.symm hk)]

/-- Applying custom headers none of which canonicalise to the looked-up key
leaves the lookup unchanged. -/
lemma applyHeaders_get_preserve (hdrs : List (String × String))
    (h : List (String × String)) (k : String)
    (hnone : ∀ p ∈ hdrs, canonicalMIMEHeaderKey p.1 ≠ canonicalMIMEHeaderKey k) :
    headerGet (applyHeaders h hdrs) k = headerGet h k := by
  induction hdrs generalizing h with
  | nil => rfl
  | cons q t ih =>
    have step : applyHeaders h (q :: t) = applyHeaders (headerSet h q.1 q.2) t := rfl
    rw [step, ih _ (fun p hp => hnone p (List.mem_cons_of_mem _ hp))]
    exact headerGet_headerSet_canon_ne _ _ _ _ (hnone q (List.mem_cons_self _ _))

/-- When the custom headers contain at least one entry canonicalising to the
looked-up key, and every such entry carries the value `v`, the lookup after
applying them yields `v` — regardless of application order and of what was
stored before. -/
lemma applyHeaders_get_wins (hdrs : List (String × String))
    (h : List (String × String)) (k v : String)
    (hex : ∃ p ∈ hdrs, canonicalMIMEHeaderKey p.1 = canonicalMIMEHeaderKey k)
    (huniq : ∀ p ∈ hdrs,
      canonicalMIMEHeaderKey p.1 = canonicalMIMEHeaderKey k → p.2 = v) :
    headerGet (applyHeaders h hdrs) k = some v := by
  induction hdrs generalizing h with
  | nil => obtain ⟨p, hp, -⟩ := hex; exact absurd hp (List.not_mem_nil p)
  | cons q t ih =>
    have step : applyHeaders h (q :: t) = applyHeaders (headerSet h q.1 q.2) t := rfl
    by_cases hrest : ∃ p ∈ t, canonicalMIMEHeaderKey p.1 = canonicalMIMEHeaderKey k
    · rw [step]
      exact ih _ hrest (fun p hp => huniq p (List.mem_cons_of_mem _ hp))
    · have hq : canonicalMIMEHeaderKey q.1 = canonicalMIMEHeaderKey k := by
        obtain ⟨p, hp, hcp⟩ := hex
        rcases List.mem_cons.mp hp with hpq | hpt
        · rwa [hpq] at hcp
        · exact absurd ⟨p, hpt, hcp⟩ hrest
      have hnone : ∀ p ∈ t,
          canonicalMIMEHeaderKey p.1 ≠ canonicalMIMEHeaderKey k :=
        fun p hp hc => hrest ⟨p, hp, hc⟩
      rw [step, applyHeaders_get_preserve t _ k hnone,
        headerGet_headerSet_canon_eq _ _ _ _ hq,
        huniq q (List.mem_cons_self _ _) hq]

/-- A structured body whose content type falls into the `default` branch of
the serialization switch makes `prepareBody` fail with the
unsupported-content-type error, for every environment. -/
lemma prepareBody_unsupported {Struct : Type} (c : Env Struct)
    (o : RequestOptions Struct) (v : Struct)
    (hbody : o.requestBody = .structured v)
    (hjson : o.contentType ≠ "application/json")
    (hxml : o.contentType ≠ "application/xml") :
    prepareBody c o =
      .error (.errorf ("unsupported Content-Type: " ++ o.contentType)) := by
  unfold prepareBody
  rw [hbody]
  dsimp only
  split
  · exact absurd (by assumption) hjson
  · exact absurd (by assumption) hxml
  · rfl

/-! Claim theorems. -/

/-- C1, counterexample: with a structured request body and an empty
`ContentType` the code does not JSON-encode the body — it fails before
dispatch with the unsupported-content-type error (the `default` branch of
the serialization switch, src lines 80-81, catches the empty string). -/
theorem claimC1_counterexample :
    Request envOk optsStructNoCT = .error (.errorf "unsupported Content-Type: ") := by
  rfl

/-- C1, amended: for every `RequestOptions` whose `RequestBody` is a
structured value and whose `ContentType` is the empty string, a non-mock
`Request` fails with the unsupported-content-type error before dispatch;
JSON encoding is selected only when `ContentType` is exactly
`"application/json"`. -/
theorem claimC1_amended {Struct : Type} (c : Env Struct)
    (o : RequestOptions Struct) (v : Struct)
    (hprod : c.isProduction ≠ "false")
    (hbody : o.requestBody = .structured v)
    (hct : o.contentType = "") :
    Request c o = .error (.errorf "unsupported Content-Type: ") := by
  have h := prepareBody_unsupported c o v hbody
    (by rw [hct]; decide) (by rw [hct]; decide)
  rw [hct] at h
  unfold Request
  rw [if_neg hprod]
  unfold requestReal
  rw [h]
  rfl

/-- C1, witness for the amended claim at a concrete input. -/
theorem claimC1_amended_witness :
    Request envOk optsStructNoCT = .error (.errorf "unsupported Content-Type: ") :=
  claimC1_amended envOk optsStructNoCT () (by decide) rfl rfl

/-- C5: a structured request body with a content type that is neither
`"application/json"` nor `"application/xml"` nor empty makes a non-mock
`Request` fail with the unsupported-content-type error, and — since the
result is the same for every construction checker and every transport — no
request is constructed or sent. -/
theorem claimC5_unsupported_content_type {Struct : Type} (c : Env Struct)
    (o : RequestOptions Struct) (v : Struct)
    (hprod : c.isProduction ≠ "false")
    (hbody : o.requestBody = .structured v)
    (hjson : o.contentType ≠ "application/json")
    (hxml : o.contentType ≠ "application/xml")
    (_hempty : o.contentType ≠ "") :
    Request c o = .error (.errorf ("unsupported Content-Type: " ++ o.contentType)) ∧
    ∀ f g, Request { c with newRequestCheck := f, clDo := g } o = Request c o := by
  have h : ∀ c' : Env Struct, c'.isProduction ≠ "false" →
      Request c' o = .error (.errorf ("unsupported Content-Type: " ++ o.contentType)) := by
    intro c' hp
    unfold Request
    rw [if_neg hp]
    unfold requestReal
    rw [prepareBody_unsupported c' o v hbody hjson hxml]
  refine ⟨h c hprod, fun f g => ?_⟩
  rw [h c hprod, h { c with newRequestCheck := f, clDo := g } hprod]

/-- C5, witness: a structured body with content type `"text/plain"` fails
with the unsupported-content-type error. -/
theorem claimC5_witness :
    Request envOk optsTextPlainStruct =
      .error (.errorf "unsupported Content-Type: text/plain") ∧
    ∀ f g, Request { envOk with newRequestCheck := f, clDo := g }
        optsTextPlainStruct =
      Request envOk optsTextPlainStruct :=
  claimC5_unsupported_content_type envOk optsTextPlainStruct ()
    (by decide) rfl (by decide) (by decide) (by decide)

/-- C7: when the transport's `Do` fails, `Request` returns that very error
value — not wrapped in any other error — and no response. -/
theorem claimC7_transport_error_unwrapped {Struct : Type} (c : Env Struct)
    (o : RequestOptions Struct) (b : Option String) (e : GoError)
    (hprod : c.isProduction ≠ "false")
    (hprep : prepareBody c o = .ok b)
    (hcons : c.newRequestCheck o.method o.url = none)
    (hdo : c.clDo (buildRequest o b) = .error e) :
    Request c o = .error e := by
  unfold Request
  rw [if_neg hprod]
  unfold requestReal
  rw [hprep]
  dsimp only
  rw [hcons]
  dsimp only
  unfold sendAndRead
  rw [hdo]

/-- C7, witness: a connection-refused transport error is propagated as-is. -/
theorem claimC7_witness :
    Request envDoErr optsPlain = .error (.transportFailure "connection refused") :=
  claimC7_transport_error_unwrapped envDoErr optsPlain none
    (.transportFailure "connection refused") (by decide) rfl rfl rfl

/-- C8: a structured body whose selected serializer (JSON for
`"application/json"`, XML for `"application/xml"`) fails makes a non-mock
`Request` fail with the marshal error wrapping the underlying cause, and —
the result being the same for every construction checker and every
transport — no request is constructed or sent. -/
theorem claimC8_serialization_error {Struct : Type} (c : Env Struct)
    (o : RequestOptions Struct) (v : Struct) (e : GoError)
    (hprod : c.isProduction ≠ "false")
    (hbody : o.requestBody = .structured v)
    (hcase : (o.contentType = "application/json" ∧ c.jsonMarshal v = .error e) ∨
      (o.contentType = "application/xml" ∧ c.xmlMarshal v = .error e)) :
    Request c o = .error (.wrapped "error marshal request body" e) ∧
    ∀ f g, Request { c with newRequestCheck := f, clDo := g } o = Request c o := by
  have h : ∀ c' : Env Struct, c'.isProduction ≠ "false" →
      c'.jsonMarshal = c.jsonMarshal → c'.xmlMarshal = c.xmlMarshal →
      Request c' o = .error (.wrapped "error marshal request body" e) := by
    intro c' hp hj hx
    unfold Request
    rw [if_neg hp]
    unfold requestReal
    have hprep : prepareBody c' o = .error (.wrapped "error marshal request body" e) := by
      rcases hcase with ⟨hct, hm⟩ | ⟨hct, hm⟩
      · have hred : prepareBody c' o =
            match c'.jsonMarshal v with
            | .ok b => .ok (some b)
            | .error e => .error (.wrapped "error marshal request body" e) := by
          unfold prepareBody
          rw [hbody, hct]
          rfl
        rw [hred, hj, hm]
      · have hred : prepareBody c' o =
            match c'.xmlMarshal v with
            | .ok b => .ok (some b)
            | .error e => .error (.wrapped "error marshal request body" e) := by
          unfold prepareBody
          rw [hbody, hct]
          rfl
        rw [hred, hx, hm]
    rw [hprep]
  refine ⟨h c hprod rfl rfl, fun f g => ?_⟩
  rw [h c hprod rfl rfl, h { c with newRequestCheck := f, clDo := g } hprod rfl rfl]

/-- C8, witness: a failing JSON encoder yields the wrapped marshal error. -/
theorem claimC8_witness :
    Request envJsonMarshalFail optsJsonStruct =
      .error (.wrapped "error marshal request body" (.externalFailure "cycle")) ∧
    ∀ f g,
      Request { envJsonMarshalFail with newRequestCheck := f, clDo := g }
        optsJsonStruct =
      Request envJsonMarshalFail optsJsonStruct :=
  claimC8_serialization_error envJsonMarshalFail optsJsonStruct ()
    (.externalFailure "cycle") (by decide) rfl (Or.inl ⟨rfl, rfl⟩)

/-- C9: a `string` or `[]byte` request body is used verbatim: body
preparation yields exactly those bytes with no serialization step (the
result does not depend on either marshaller), the outgoing request carries
exactly those bytes, and this holds for every `ContentType` value. -/
theorem claimC9_raw_body_verbatim {Struct : Type} (c : Env Struct)
    (o : RequestOptions Struct) (s : String)
    (hprod : c.isProduction ≠ "false")
    (hbody : o.requestBody = .str s ∨ o.requestBody = .bytes s) :
    prepareBody c o = .ok (some s) ∧
    (buildRequest o (some s)).body = some s ∧
    (∀ jm xm, Request { c with jsonMarshal := jm, xmlMarshal := xm } o = Request c o) ∧
    (c.newRequestCheck o.method o.url = none →
      Request c o = sendAndRead c (buildRequest o (some s))) := by
  have hprep : ∀ c' : Env Struct, prepareBody c' o = .ok (some s) := by
    intro c'
    unfold prepareBody
    rcases hbody with h | h <;> rw [h]
  have key : ∀ c' : Env Struct, c'.isProduction = c.isProduction →
      c'.newRequestCheck = c.newRequestCheck → c'.clDo = c.clDo →
      Request c' o =
        if c.isProduction = "false" then handleDevelopmentRequest o
        else
          match c.newRequestCheck o.method o.url with
          | some e => .error (.wrapped "error create request" e)
          | none => sendAndRead c (buildRequest o (some s)) := by
    intro c' h1 h2 h3
    unfold Request requestReal sendAndRead
    rw [h1, h2, h3, hprep c']
  refine ⟨hprep c, rfl, fun jm xm => ?_, fun hcons => ?_⟩
  · rw [key { c with jsonMarshal := jm, xmlMarshal := xm } rfl rfl rfl,
      key c rfl rfl rfl]
  · rw [key c rfl rfl rfl, if_neg hprod, hcons]

/-- C9, witness: a string body `"RAW"` is dispatched verbatim with content
type `"text/plain"`. -/
theorem claimC9_witness :
    prepareBody envOk optsRaw = .ok (some "RAW") ∧
    (buildRequest optsRaw (some "RAW")).body = some "RAW" ∧
    (∀ jm xm, Request { envOk with jsonMarshal := jm, xmlMarshal := xm } optsRaw =
      Request envOk optsRaw) ∧
    (envOk.newRequestCheck optsRaw.method optsRaw.url = none →
      Request envOk optsRaw = sendAndRead envOk (buildRequest optsRaw (some "RAW"))) :=
  claimC9_raw_body_verbatim envOk optsRaw "RAW" (by decide) (Or.inl rfl)

/-- C6: with a non-empty `ContentType` and a custom header entry whose
canonical name is `Content-Type` (all such entries carrying the value `v`,
as a Go map yields at most one), the value finally present on the outgoing
request is the custom header's value `v`, not the computed content type:
the content type is set first (src line 98) and the custom headers are
applied after it (src lines 102-104), each `Set` overwriting. -/
theorem claimC6_custom_header_overrides {Struct : Type}
    (o : RequestOptions Struct) (body : Option String) (k v : String)
    (_hct : o.contentType ≠ "")
    (hmem : (k, v) ∈ o.headers)
    (hck : canonicalMIMEHeaderKey k = "Content-Type")
    (huniq : ∀ p ∈ o.headers,
      canonicalMIMEHeaderKey p.1 = "Content-Type" → p.2 = v) :
    headerGet (buildRequest o body).header "Content-Type" = some v := by
  have hcanonCT : canonicalMIMEHeaderKey "Content-Type" = "Content-Type" := rfl
  have hex : ∃ p ∈ o.headers,
      canonicalMIMEHeaderKey p.1 = canonicalMIMEHeaderKey "Content-Type" :=
    ⟨(k, v), hmem, by rw [hcanonCT]; exact hck⟩
  have huniq' : ∀ p ∈ o.headers,
      canonicalMIMEHeaderKey p.1 = canonicalMIMEHeaderKey "Content-Type" →
        p.2 = v := by
    intro p hp h
    exact huniq p hp (by rwa [hcanonCT] at h)
  unfold buildRequest
  dsimp only
  cases hba : o.basicAuth with
  | none =>
    exact applyHeaders_get_wins _ _ _ _ hex huniq'
  | some ba =>
    rw [headerGet_headerSet_canon_ne _ _ _ _ (by decide)]
    exact applyHeaders_get_wins _ _ _ _ hex huniq'

/-- C6, witness: explicit content type `application/json` and a custom
`content-type: text/plain` header; the outgoing request carries
`text/plain`. -/
theorem claimC6_witness :
    optsHdrOverride.contentType ≠ "" ∧
    ("content-type", "text/plain") ∈ optsHdrOverride.headers ∧
    canonicalMIMEHeaderKey "content-type" = "Content-Type" ∧
    headerGet (buildRequest optsHdrOverride (some "{}")).header "Content-Type" =
      some "text/plain" :=
  ⟨by decide, by decide, rfl,
    claimC6_custom_header_overrides optsHdrOverride (some "{}") "content-type"
      "text/plain" (by decide) (by decide) rfl (by decide)⟩

/-- C10: the mock short-circuit is taken exactly when `IS_PRODUCTION`
equals `"false"`: under that value every call returns the fixed mock
response whatever the collaborators do, while under any other value (unset,
empty, `"0"`, `"FALSE"`, ...) the real pipeline runs — there is an
environment with that same flag value whose call does not produce the mock
response. -/
theorem claimC10_mock_iff_false {Struct : Type} (c : Env Struct)
    (o : RequestOptions Struct) :
    (c.isProduction = "false" →
      Request c o = .ok { statusCode := 200, body := "success" }) ∧
    (c.isProduction ≠ "false" → ∃ c' : Env Struct,
      c'.isProduction = c.isProduction ∧
      Request c' o ≠ .ok { statusCode := 200, body := "success" }) := by
  constructor
  · intro h
    unfold Request
    rw [if_pos h]
    rfl
  · intro h
    refine ⟨⟨c.isProduction, fun _ => .error (.externalFailure "m"),
      fun _ => .error (.externalFailure "m"),
      fun _ _ => some (.externalFailure "bad"),
      fun _ => .error (.transportFailure "net")⟩, rfl, ?_⟩
    intro hcontra
    unfold Request at hcontra
    rw [if_neg h] at hcontra
    unfold requestReal at hcontra
    cases hprep : prepareBody
        ⟨c.isProduction, fun _ => .error (.externalFailure "m"),
          fun _ => .error (.externalFailure "m"),
          fun _ _ => some (.externalFailure "bad"),
          fun _ => .error (.transportFailure "net")⟩ o with
    | error e =>
      rw [hprep] at hcontra
      exact Except.noConfusion hcontra
    | ok body =>
      rw [hprep] at hcontra
      dsimp only at hcontra
      exact Except.noConfusion hcontra

/-- C10, witness: `IS_PRODUCTION=false` yields the mock response, and for
`IS_PRODUCTION=true` there is an environment with that flag whose call does
not yield the mock response. -/
theorem claimC10_witness :
    Request envMock optsPlain = .ok { statusCode := 200, body := "success" } ∧
    (∃ c' : Env Unit, c'.isProduction = envTrue.isProduction ∧
      Request c' optsPlain ≠ .ok { statusCode := 200, body := "success" }) :=
  ⟨(claimC10_mock_iff_false envMock optsPlain).1 rfl,
    (claimC10_mock_iff_false envTrue optsPlain).2 (by decide)⟩

/-- C3, counterexample: in mock mode the call does return status 200 and the
fixed body `"success"` without error, but the returned `ApiResponse` carries
no headers at all — in particular no `Content-Type: application/json`
response header — because the `ApiResponse` struct has only `StatusCode`
and `Body`. -/
theorem claimC3_counterexample :
    Request envMock optsStructNoCT = .ok { statusCode := 200, body := "success" } ∧
    Except.map (fun r => (ApiResponse.carriedHeaders r).lookup "Content-Type")
      (Request envMock optsStructNoCT) = .ok none :=
  ⟨rfl, rfl⟩

/-- C3, amended: when `IS_PRODUCTION=false`, every call — whatever the
options, valid or not — returns without error the fixed response with
status 200 and body `"success"`, consults no collaborator (marshal,
construction check or transport), and the returned `ApiResponse` carries no
headers (so no `Content-Type` response header exists). -/
theorem claimC3_amended {Struct : Type} (c : Env Struct)
    (o : RequestOptions Struct)
    (hprod : c.isProduction = "false") :
    Request c o = .ok { statusCode := 200, body := "success" } ∧
    (Request c o).map ApiResponse.carriedHeaders = .ok [] ∧
    ∀ jm xm f g,
      Request { c with jsonMarshal := jm, xmlMarshal := xm,
                       newRequestCheck := f, clDo := g } o = Request c o := by
  have h : ∀ c' : Env Struct, c'.isProduction = "false" →
      Request c' o = .ok { statusCode := 200, body := "success" } := by
    intro c' hp
    unfold Request
    rw [if_pos hp]
    rfl
  refine ⟨h c hprod, ?_, fun jm xm f g => ?_⟩
  · rw [h c hprod]
    rfl
  · exact (h { c with jsonMarshal := jm, xmlMarshal := xm,
                      newRequestCheck := f, clDo := g } hprod).trans
      (h c hprod).symm

/-- C3, witness for the amended claim at a concrete mock environment. -/
theorem claimC3_amended_witness :
    Request envMock optsPlain = .ok { statusCode := 200, body := "success" } ∧
    (Request envMock optsPlain).map ApiResponse.carriedHeaders = .ok [] ∧
    ∀ jm xm f g,
      Request { envMock with jsonMarshal := jm, xmlMarshal := xm,
                             newRequestCheck := f, clDo := g } optsPlain =
        Request envMock optsPlain :=
  claimC3_amended envMock optsPlain rfl

/-- C4, counterexample: the transport answers with a multi-valued header
`X-Multi: a, b`; the call succeeds, but the returned `ApiResponse` carries
no headers mapping at all — the lookup of `X-Multi` yields `none`, not the
first value `"a"` — because the src `ApiResponse` has only `StatusCode`
and `Body` and src lines 124-127 discard `resp.Header`. -/
theorem claimC4_counterexample :
    Request envOk optsPlain = .ok { statusCode := 201, body := "B" } ∧
    Except.map (fun r => (ApiResponse.carriedHeaders r).lookup "X-Multi")
      (Request envOk optsPlain) = .ok none :=
  ⟨rfl, rfl⟩

/-- C4, amended: every successful call returns an `ApiResponse` carrying
exactly the transport's status code and the raw body bytes; no headers
mapping is carried — the transport's response headers, multi-valued or not,
are discarded. -/
theorem claimC4_amended {Struct : Type} (c : Env Struct)
    (o : RequestOptions Struct) (b : Option String) (resp : HttpResp)
    (respByte : String)
    (hprod : c.isProduction ≠ "false")
    (hprep : prepareBody c o = .ok b)
    (hcons : c.newRequestCheck o.method o.url = none)
    (hdo : c.clDo (buildRequest o b) = .ok resp)
    (hread : resp.bodyRead = .ok respByte) :
    Request c o = .ok { statusCode := resp.statusCode, body := respByte } ∧
    ApiResponse.carriedHeaders { statusCode := resp.statusCode, body := respByte } = [] := by
  refine ⟨?_, rfl⟩
  unfold Request
  rw [if_neg hprod]
  unfold requestReal
  rw [hprep]
  dsimp only
  rw [hcons]
  dsimp only
  unfold sendAndRead
  rw [hdo]
  dsimp only
  rw [hread]

/-- C4, witness for the amended claim: the concrete transport response with
status 201 and body `"B"` comes back as exactly that status and body, with
empty carried headers. -/
theorem claimC4_amended_witness :
    Request envOk optsPlain = .ok { statusCode := 201, body := "B" } ∧
    ApiResponse.carriedHeaders { statusCode := 201, body := "B" } = [] :=
  claimC4_amended envOk optsPlain none
    { statusCode := 201, headers := [("X-Multi", ["a", "b"])], bodyRead := .ok "B" }
    "B" (by decide) rfl rfl rfl rfl

/-- C2: in the spec-modelled `Request` variant with a response target, when
a target is supplied and the effective content type (explicit request
`ContentType`, else the response's declared content-type header, else
empty/JSON) contains `"application/json"` or is empty, the response body is
JSON-decoded into the target and returned alongside the raw response. -/
theorem claimC2_json_decode {Struct Target : Type} (c : Env Struct)
    (jsonU xmlU : String → Except GoError Target)
    (o : RequestOptions Struct) (b : Option String) (resp : HttpResp)
    (respByte : String) (t : Target)
    (hprod : c.isProduction ≠ "false")
    (hprep : prepareBody c o = .ok b)
    (hcons : c.newRequestCheck o.method o.url = none)
    (hdo : c.clDo (buildRequest o b) = .ok resp)
    (hread : resp.bodyRead = .ok respByte)
    (hct : strContains (effectiveContentType o.contentType (respContentType resp))
        "application/json" = true ∨
      effectiveContentType o.contentType (respContentType resp) = "")
    (hdec : jsonU respByte = .ok t) :
    RequestWithParse c jsonU xmlU o true =
      .ok ({ statusCode := resp.statusCode, body := respByte }, some t) := by
  have hcond : (strContains (effectiveContentType o.contentType (respContentType resp))
      "application/json" ||
      effectiveContentType o.contentType (respContentType resp) == "") = true := by
    rcases hct with h | h
    · rw [h]
      simp
    · rw [h]
      simp
  unfold RequestWithParse
  rw [if_neg hprod, hprep]
  dsimp only
  rw [hcons]
  dsimp only
  rw [hdo]
  dsimp only
  rw [hread]
  dsimp only
  rw [if_pos rfl]
  unfold parseResponseBody
  rw [if_pos hcond, hdec]

/-- C2, witness: no explicit content type and no declared response
content-type header makes the effective content type empty, and the body
`"B"` is JSON-decoded (by the echoing unmarshaller) into the target. -/
theorem claimC2_witness :
    RequestWithParse envOk jsonEcho xmlNever optsPlain true =
      .ok ({ statusCode := 201, body := "B" }, some "B") :=
  claimC2_json_decode envOk jsonEcho xmlNever optsPlain none
    { statusCode := 201, headers := [("X-Multi", ["a", "b"])], bodyRead := .ok "B" }
    "B" "B" (by decide) rfl rfl rfl rfl (Or.inr rfl) rfl

end HttpRequestInstant
